import Mathlib

/-!
Shallow embedding of the synthetic metric reconciliation engine of
`data_process.py` (the `fix_data_comprehensive` section): the per-record
pipeline that regenerates conversion counts, approved conversions, revenue
figures and the derived ratios (CVR, CPA, ROAS) from a record's observed
spend, impressions and clicks.

Currency amounts, rates and ratios are modelled as rationals (`ℚ`).  The
process-wide numpy pseudo-random stream is modelled as an explicit state: an
infinite sequence of raw rational values together with a cursor; each draw
clamps the current raw value into the unit interval and advances the cursor.
`np.random.uniform(a, b)` becomes an affine map of a unit draw,
`np.random.binomial(n, p)` a sum of `n` unit-draw Bernoulli trials.  All
claims below quantify over every stream state, so nothing depends on the
distribution of the raw values.
-/

namespace PaidMedia

/-- State of the process-wide pseudo-random stream: an infinite supply of raw
rational values and the index of the next one to be consumed. -/
structure RState where
  seq : ℕ → ℚ
  idx : ℕ

/-- Clamp a raw stream value into the unit interval `[0, 1]`. -/
def unitClamp (u : ℚ) : ℚ := max 0 (min 1 u)

/-- `np.random.random()`: consume one raw value, return it clamped to `[0,1]`
together with the advanced stream state. -/
def randomUnit (s : RState) : ℚ × RState :=
  (unitClamp (s.seq s.idx), ⟨s.seq, s.idx + 1⟩)

/-- `np.random.uniform(a, b)`: an affine image of a unit draw, always landing
in `[a, b]` when `a ≤ b`. -/
def randomUniform (a b : ℚ) (s : RState) : ℚ × RState :=
  let p := randomUnit s
  (a + (b - a) * p.1, p.2)

/-- `np.random.binomial(n, p)`: count successes over `n` unit-draw Bernoulli
trials with success probability `p`. -/
def randomBinomial (n : ℕ) (p : ℚ) (s : RState) : ℕ × RState :=
  match n with
  | 0 => (0, s)
  | m + 1 =>
    let u := randomUnit s
    let rest := randomBinomial m p u.2
    ((if u.1 < p then 1 else 0) + rest.1, rest.2)

/-- Python `int(x)`: truncation toward zero on a rational. -/
def intTrunc (x : ℚ) : ℤ := if x < 0 then -Int.floor (-x) else Int.floor x

/-- One input row of ad-delivery data; the fields the synthesizer reads
(`age`, `gender`, `Impressions`, `Clicks`, `Spent`) are the immutable inputs. -/
structure Row where
  age : String
  gender : String
  impressions : ℕ
  clicks : ℕ
  spent : ℚ
deriving DecidableEq

/-- The synthesized columns written back to a row by the fixing loop. -/
structure OutRow where
  total_conversion : ℕ
  approved_conversion : ℕ
  revenue_total : ℚ
  revenue_approved : ℚ
  cvr_total : ℚ
  cvr_approved : ℚ
  cpa_total : ℚ
  cpa_approved : ℚ
  roas_total : ℚ
  roas_approved : ℚ
deriving DecidableEq

/-- `settings['age_cvr']`: age segment → baseline conversion rate, with the
`.get(age, 0.028)` fallback for unrecognized segments. -/
def age_cvr (age : String) : ℚ :=
  if age = "18-24" then 0.010
  else if age = "25-29" then 0.018
  else if age = "30-34" then 0.028
  else if age = "35-39" then 0.035
  else if age = "40-44" then 0.042
  else if age = "45-49" then 0.038
  else if age = "50+" then 0.025
  else 0.028

/-- `settings['gender_adj']`: gender → multiplicative adjustment, with the
`.get(gender, 1.0)` fallback. -/
def gender_adj (gender : String) : ℚ :=
  if gender = "M" then 1.0
  else if gender = "F" then 1.12
  else 1.0

/-- Product tiers for the revenue model. -/
inductive Tier where
  | basic
  | standard
  | premium
deriving DecidableEq

/-- `settings['revenue_tiers']`: tier → per-conversion revenue range. -/
def revenue_tiers : Tier → ℚ × ℚ
  | Tier.basic => (40, 120)
  | Tier.standard => (150, 400)
  | Tier.premium => (600, 1200)

/-- `get_product_tier(spent, clicks)`: pick the product tier from spend and
click magnitude. -/
def get_product_tier (spent : ℚ) (clicks : ℕ) : Tier :=
  if spent < 10 ∨ clicks < 5 then Tier.basic
  else if spent > 50 ∨ clicks > 30 then Tier.premium
  else Tier.standard

/-- The age → revenue multiplier dictionary inside
`calculate_realistic_metrics`, with its `.get(age, 1.0)` fallback. -/
def age_revenue_mult (age : String) : ℚ :=
  if age = "18-24" then 0.8
  else if age = "25-29" then 0.9
  else if age = "30-34" then 1.1
  else if age = "35-39" then 1.3
  else if age = "40-44" then 1.4
  else if age = "45-49" then 1.2
  else if age = "50+" then 1.0
  else 1.0

/-- `ctr = clicks / impressions if impressions > 0 else 0`. -/
def ctr_of (clicks impressions : ℕ) : ℚ :=
  if 0 < impressions then (clicks : ℚ) / (impressions : ℚ) else 0

/-- `quality_adj = 1.2 if ctr > 0.0003 else 0.8 if ctr < 0.0001 else 1.0`. -/
def quality_adj_of (ctr : ℚ) : ℚ :=
  if ctr > 0.0003 then 1.2 else if ctr < 0.0001 then 0.8 else 1.0

/-- The sample-size ceiling on the plausible conversion rate: `0.12` for at
most 3 clicks, `0.08` for at most 8, `0.06` above. -/
def max_cvr_of (clicks : ℕ) : ℚ :=
  if clicks ≤ 3 then 0.12 else if clicks ≤ 8 then 0.08 else 0.06

/-- The variance multiplier draw of the sample-size policy: uniform on
`[0.6, 1.5]` for at most 3 clicks, `[0.8, 1.3]` for at most 8, `[0.9, 1.1]`
above. -/
def drawVariance (clicks : ℕ) (s : RState) : ℚ × RState :=
  if clicks ≤ 3 then randomUniform 0.6 1.5 s
  else if clicks ≤ 8 then randomUniform 0.8 1.3 s
  else randomUniform 0.9 1.1 s

/-- `realistic_cvr`: the product base × gender × quality × variance clamped
into `[0.005, max_cvr]` by `max(0.005, min(max_cvr, …))`. -/
def realistic_cvr_of (row : Row) (variance : ℚ) : ℚ :=
  let base_cvr := age_cvr row.age
  let gender_mult := gender_adj row.gender
  let quality_adj := quality_adj_of (ctr_of row.clicks row.impressions)
  max 0.005 (min (max_cvr_of row.clicks) (base_cvr * gender_mult * quality_adj * variance))

/-- Step 2 of `calculate_realistic_metrics`: the conversion-count draw.  Below
the small-expectation threshold a single Bernoulli trial with success
probability `cvr × clicks`; otherwise a Binomial draw with `n = clicks`,
`p = cvr`. -/
def drawConversions (cvr : ℚ) (clicks : ℕ) (s : RState) : ℕ × RState :=
  if cvr * (clicks : ℚ) < 0.15 then
    let p := randomUnit s
    ((if p.1 < cvr * (clicks : ℚ) then 1 else 0), p.2)
  else
    randomBinomial clicks cvr s

/-- Step 3 of `calculate_realistic_metrics`: the revenue draw.  Returns
`(total_revenue, revenue_per_conv)` and the new stream state; both zero and no
draw consumed when there are no conversions. -/
def drawRevenue (row : Row) (new_conversions : ℕ) (s : RState) : (ℚ × ℚ) × RState :=
  if 0 < new_conversions then
    let tier := get_product_tier row.spent row.clicks
    let range := revenue_tiers tier
    let b := randomUniform range.1 range.2 s
    let revenue_per_conv := b.1 * age_revenue_mult row.age
    (((new_conversions : ℚ) * revenue_per_conv, revenue_per_conv), b.2)
  else
    ((0, 0), s)

/-- Step 4 of `calculate_realistic_metrics`: the approval simulation.  An
approval rate uniform on `[0.70, 0.88]` times the conversion count,
truncated by `max(0, int(…))`; approved revenue is the approved count times
the per-conversion revenue.  Returns `(approved_conv, approved_revenue)`. -/
def drawApproval (new_conversions : ℕ) (revenue_per_conv : ℚ) (s : RState) :
    (ℕ × ℚ) × RState :=
  if 0 < new_conversions then
    let a := randomUniform 0.70 0.88 s
    let approved_conv := (max 0 (intTrunc ((new_conversions : ℚ) * a.1))).toNat
    ((approved_conv,
      if 0 < approved_conv then (approved_conv : ℚ) * revenue_per_conv else 0), a.2)
  else
    ((0, 0), s)

/-- The six values returned by `calculate_realistic_metrics`. -/
structure SynthResult where
  new_conversions : ℕ
  approved_conv : ℕ
  total_revenue : ℚ
  approved_revenue : ℚ
  new_cvr_total : ℚ
  new_cvr_approved : ℚ
deriving DecidableEq

/-- `calculate_realistic_metrics(row)`: the per-record synthesis pipeline.
`clicks == 0` is the terminal case: all six outputs zero, no draw consumed.
Otherwise: variance draw → realistic CVR → conversion draw → revenue draw →
approval draw → recomputed CVRs. -/
def calculate_realistic_metrics (row : Row) (s : RState) : SynthResult × RState :=
  if row.clicks = 0 then (⟨0, 0, 0, 0, 0, 0⟩, s)
  else
    let v := drawVariance row.clicks s
    let realistic_cvr := realistic_cvr_of row v.1
    let c := drawConversions realistic_cvr row.clicks v.2
    let r := drawRevenue row c.1 c.2
    let a := drawApproval c.1 r.1.2 r.2
    (⟨c.1, a.1.1, r.1.1, a.1.2,
      (c.1 : ℚ) / (row.clicks : ℚ), (a.1.1 : ℚ) / (row.clicks : ℚ)⟩, a.2)

/-- The body of the fixing loop in `fix_data_comprehensive`: write the six
synthesized values into the row and recompute CPA and ROAS with zero-guarded
divisions (sentinel 0). -/
def fixRow (row : Row) (s : RState) : OutRow × RState :=
  let m := calculate_realistic_metrics row s
  let spent := row.spent
  ({ total_conversion := m.1.new_conversions
     approved_conversion := m.1.approved_conv
     revenue_total := m.1.total_revenue
     revenue_approved := m.1.approved_revenue
     cvr_total := m.1.new_cvr_total
     cvr_approved := m.1.new_cvr_approved
     cpa_total := if 0 < m.1.new_conversions then spent / (m.1.new_conversions : ℚ) else 0
     cpa_approved := if 0 < m.1.approved_conv then spent / (m.1.approved_conv : ℚ) else 0
     roas_total := if 0 < spent then m.1.total_revenue / spent else 0
     roas_approved := if 0 < spent then m.1.approved_revenue / spent else 0 }, m.2)

/-- `fix_data_comprehensive`: the whole run — records processed strictly in
order, the single stream state threaded from each record to the next. -/
def fix_data_comprehensive : List Row → RState → List OutRow
  | [], _ => []
  | r :: rs, s =>
    let p := fixRow r s
    p.1 :: fix_data_comprehensive rs p.2

/-- The reconciliation reporter's high-ROAS-zero-conversion count:
`((ROAS_Total > 5) & (Total_Conversion == 0)).sum()` over the output set. -/
def high_roas_zero_conv (outs : List OutRow) : ℕ :=
  outs.countP (fun o => decide (5 < o.roas_total) && decide (o.total_conversion = 0))

/-- The drawn variance multiplier of a record, as threaded by
`calculate_realistic_metrics`. -/
def varOf (row : Row) (s : RState) : ℚ × RState :=
  drawVariance row.clicks s

/-- The realistic CVR of a record at stream state `s`. -/
def cvrOf (row : Row) (s : RState) : ℚ :=
  realistic_cvr_of row (varOf row s).1

/-- The conversion-count draw of a record at stream state `s`. -/
def convOf (row : Row) (s : RState) : ℕ × RState :=
  drawConversions (cvrOf row s) row.clicks (varOf row s).2

/-- The revenue draw of a record at stream state `s`. -/
def revOf (row : Row) (s : RState) : (ℚ × ℚ) × RState :=
  drawRevenue row (convOf row s).1 (convOf row s).2

/-- The approval draw of a record at stream state `s`. -/
def apprOf (row : Row) (s : RState) : (ℕ × ℚ) × RState :=
  drawApproval (convOf row s).1 ((revOf row s).1).2 (revOf row s).2

/-- The end-to-end scenario row of the spec:
`{age: "35-39", gender: "F", Impressions: 1000, Clicks: 20, Spent: 60}`. -/
def rowC8 : Row := ⟨"35-39", "F", 1000, 20, 60⟩

/-! ### Bounds on the draw primitives -/

theorem randomUnit_nonneg (s : RState) : 0 ≤ (randomUnit s).1 :=
  le_max_left 0 _

theorem randomUnit_le_one (s : RState) : (randomUnit s).1 ≤ 1 :=
  max_le (by norm_num) (min_le_left _ _)

theorem randomUniform_mem (a b : ℚ) (s : RState) (hab : a ≤ b) :
    a ≤ (randomUniform a b s).1 ∧ (randomUniform a b s).1 ≤ b := by
  have h0 := randomUnit_nonneg s
  have h1 := randomUnit_le_one s
  constructor
  · show a ≤ a + (b - a) * (randomUnit s).1
    nlinarith
  · show a + (b - a) * (randomUnit s).1 ≤ b
    nlinarith

theorem randomBinomial_le (n : ℕ) (p : ℚ) (s : RState) :
    (randomBinomial n p s).1 ≤ n := by
  induction n generalizing s with
  | zero => exact Nat.le_refl 0
  | succ m ih =>
    show (if (randomUnit s).1 < p then 1 else 0) + (randomBinomial m p (randomUnit s).2).1 ≤ m + 1
    have h := ih (randomUnit s).2
    split <;> omega

theorem drawConversions_le (cvr : ℚ) (clicks : ℕ) (s : RState) (h : 1 ≤ clicks) :
    (drawConversions cvr clicks s).1 ≤ clicks := by
  unfold drawConversions
  split
  · show (if (randomUnit s).1 < cvr * (clicks : ℚ) then 1 else 0) ≤ clicks
    split <;> omega
  · exact randomBinomial_le clicks cvr s

/-! ### The static tables are positive -/

theorem age_revenue_mult_pos (age : String) : 0 < age_revenue_mult age := by
  unfold age_revenue_mult
  split_ifs <;> norm_num

theorem revenue_tiers_pos (t : Tier) :
    0 < (revenue_tiers t).1 ∧ (revenue_tiers t).1 ≤ (revenue_tiers t).2 := by
  cases t <;> refine ⟨?_, ?_⟩ <;> norm_num [revenue_tiers]

theorem max_cvr_of_lb (clicks : ℕ) : (0.005 : ℚ) ≤ max_cvr_of clicks := by
  unfold max_cvr_of
  split_ifs <;> norm_num

/-! ### Bounds on the realistic CVR -/

theorem realistic_cvr_lb (row : Row) (v : ℚ) :
    (0.005 : ℚ) ≤ realistic_cvr_of row v := by
  unfold realistic_cvr_of
  exact le_max_left _ _

theorem realistic_cvr_ub (row : Row) (v : ℚ) :
    realistic_cvr_of row v ≤ max_cvr_of row.clicks := by
  unfold realistic_cvr_of
  exact max_le (max_cvr_of_lb row.clicks) (min_le_left _ _)

/-! ### The revenue and approval steps -/

theorem drawRevenue_zero (row : Row) (s : RState) :
    drawRevenue row 0 s = ((0, 0), s) := by
  unfold drawRevenue
  simp

theorem drawRevenue_pos (row : Row) (n : ℕ) (s : RState) (h : 0 < n) :
    0 < ((drawRevenue row n s).1).2 ∧
    ((drawRevenue row n s).1).1 = (n : ℚ) * ((drawRevenue row n s).1).2 := by
  have ht := revenue_tiers_pos (get_product_tier row.spent row.clicks)
  have hb := (randomUniform_mem (revenue_tiers (get_product_tier row.spent row.clicks)).1
    (revenue_tiers (get_product_tier row.spent row.clicks)).2 s ht.2).1
  have hm := age_revenue_mult_pos row.age
  unfold drawRevenue
  rw [if_pos h]
  constructor
  · show 0 < (randomUniform (revenue_tiers (get_product_tier row.spent row.clicks)).1
      (revenue_tiers (get_product_tier row.spent row.clicks)).2 s).1 * age_revenue_mult row.age
    exact mul_pos (lt_of_lt_of_le ht.1 hb) hm
  · rfl

theorem drawApproval_zero (rpc : ℚ) (s : RState) :
    drawApproval 0 rpc s = ((0, 0), s) := by
  unfold drawApproval
  simp

theorem drawApproval_rev (n : ℕ) (rpc : ℚ) (s : RState) :
    ((drawApproval n rpc s).1).2 =
      if 0 < ((drawApproval n rpc s).1).1
      then ((((drawApproval n rpc s).1).1 : ℕ) : ℚ) * rpc else 0 := by
  unfold drawApproval
  split
  · rfl
  · simp

theorem drawApproval_spec (n : ℕ) (rpc : ℚ) (s : RState) (h : 0 < n) :
    ((((drawApproval n rpc s).1).1 : ℕ) : ℤ) ≤ ⌊(0.88 : ℚ) * (n : ℚ)⌋ ∧
    ((drawApproval n rpc s).1).1 < n := by
  have hr := randomUniform_mem 0.70 0.88 s (by norm_num)
  have hn1 : (1 : ℚ) ≤ (n : ℚ) := by exact_mod_cast h
  have hq0 : (0 : ℚ) ≤ (n : ℚ) * (randomUniform 0.70 0.88 s).1 := by nlinarith
  unfold drawApproval
  rw [if_pos h]
  show (((max 0 (intTrunc ((n : ℚ) * (randomUniform 0.70 0.88 s).1))).toNat : ℕ) : ℤ) ≤
    ⌊(0.88 : ℚ) * (n : ℚ)⌋ ∧
    (max 0 (intTrunc ((n : ℚ) * (randomUniform 0.70 0.88 s).1))).toNat < n
  have htr : intTrunc ((n : ℚ) * (randomUniform 0.70 0.88 s).1) =
      ⌊(n : ℚ) * (randomUniform 0.70 0.88 s).1⌋ := by
    unfold intTrunc
    rw [if_neg (not_lt.mpr hq0)]
  rw [htr]
  have hfl : ⌊(n : ℚ) * (randomUniform 0.70 0.88 s).1⌋ ≤ ⌊(0.88 : ℚ) * (n : ℚ)⌋ := by
    apply Int.floor_le_floor
    nlinarith [hr.2]
  have hlt : ⌊(n : ℚ) * (randomUniform 0.70 0.88 s).1⌋ < (n : ℤ) := by
    rw [Int.floor_lt]
    push_cast
    nlinarith [hr.2]
  have hge : 0 ≤ ⌊(n : ℚ) * (randomUniform 0.70 0.88 s).1⌋ := Int.floor_nonneg.mpr hq0
  omega

theorem drawApproval_one (rpc : ℚ) (s : RState) :
    ((drawApproval 1 rpc s).1).1 = 0 := by
  have hr := randomUniform_mem 0.70 0.88 s (by norm_num)
  unfold drawApproval
  rw [if_pos Nat.one_pos]
  show (max 0 (intTrunc (((1 : ℕ) : ℚ) * (randomUniform 0.70 0.88 s).1))).toNat = 0
  have hq0 : (0 : ℚ) ≤ ((1 : ℕ) : ℚ) * (randomUniform 0.70 0.88 s).1 := by
    push_cast
    linarith [hr.1]
  have htr : intTrunc (((1 : ℕ) : ℚ) * (randomUniform 0.70 0.88 s).1) =
      ⌊((1 : ℕ) : ℚ) * (randomUniform 0.70 0.88 s).1⌋ := by
    unfold intTrunc
    rw [if_neg (not_lt.mpr hq0)]
  rw [htr]
  have hfz : ⌊((1 : ℕ) : ℚ) * (randomUniform 0.70 0.88 s).1⌋ = 0 := by
    apply Int.floor_eq_zero_iff.mpr
    constructor
    · exact hq0
    · push_cast
      linarith [hr.2]
  rw [hfz]
  rfl

/-! ### Structure of `calculate_realistic_metrics` and the fixing loop body -/

theorem crm_zero (row : Row) (s : RState) (h : row.clicks = 0) :
    calculate_realistic_metrics row s = (⟨0, 0, 0, 0, 0, 0⟩, s) := by
  unfold calculate_realistic_metrics
  rw [if_pos h]

theorem crm_eq (row : Row) (s : RState) (h : row.clicks ≠ 0) :
    calculate_realistic_metrics row s =
      (⟨(convOf row s).1, ((apprOf row s).1).1, ((revOf row s).1).1, ((apprOf row s).1).2,
        ((convOf row s).1 : ℚ) / (row.clicks : ℚ),
        (((apprOf row s).1).1 : ℚ) / (row.clicks : ℚ)⟩, (apprOf row s).2) := by
  unfold calculate_realistic_metrics
  rw [if_neg h]
  rfl

theorem crm_conv (row : Row) (s : RState) (h : row.clicks ≠ 0) :
    (calculate_realistic_metrics row s).1.new_conversions = (convOf row s).1 := by
  rw [crm_eq row s h]

theorem crm_approved (row : Row) (s : RState) (h : row.clicks ≠ 0) :
    (calculate_realistic_metrics row s).1.approved_conv = ((apprOf row s).1).1 := by
  rw [crm_eq row s h]

theorem crm_rev_total (row : Row) (s : RState) (h : row.clicks ≠ 0) :
    (calculate_realistic_metrics row s).1.total_revenue = ((revOf row s).1).1 := by
  rw [crm_eq row s h]

theorem crm_rev_approved (row : Row) (s : RState) (h : row.clicks ≠ 0) :
    (calculate_realistic_metrics row s).1.approved_revenue = ((apprOf row s).1).2 := by
  rw [crm_eq row s h]

theorem fixRow_total (row : Row) (s : RState) :
    ((fixRow row s).1).total_conversion =
      (calculate_realistic_metrics row s).1.new_conversions := rfl

theorem fixRow_approved (row : Row) (s : RState) :
    ((fixRow row s).1).approved_conversion =
      (calculate_realistic_metrics row s).1.approved_conv := rfl

theorem fixRow_rev_total (row : Row) (s : RState) :
    ((fixRow row s).1).revenue_total =
      (calculate_realistic_metrics row s).1.total_revenue := rfl

theorem fixRow_rev_approved (row : Row) (s : RState) :
    ((fixRow row s).1).revenue_approved =
      (calculate_realistic_metrics row s).1.approved_revenue := rfl

theorem fixRow_roas_total (row : Row) (s : RState) :
    ((fixRow row s).1).roas_total =
      (if 0 < row.spent
       then (calculate_realistic_metrics row s).1.total_revenue / row.spent else 0) := rfl

theorem fixRow_roas_approved (row : Row) (s : RState) :
    ((fixRow row s).1).roas_approved =
      (if 0 < row.spent
       then (calculate_realistic_metrics row s).1.approved_revenue / row.spent else 0) := rfl

theorem fixRow_cpa_total (row : Row) (s : RState) :
    ((fixRow row s).1).cpa_total =
      (if 0 < (calculate_realistic_metrics row s).1.new_conversions
       then row.spent / ((calculate_realistic_metrics row s).1.new_conversions : ℚ)
       else 0) := rfl

theorem fixRow_cpa_approved (row : Row) (s : RState) :
    ((fixRow row s).1).cpa_approved =
      (if 0 < (calculate_realistic_metrics row s).1.approved_conv
       then row.spent / ((calculate_realistic_metrics row s).1.approved_conv : ℚ)
       else 0) := rfl

theorem fixRow_state (row : Row) (s : RState) :
    (fixRow row s).2 = (calculate_realistic_metrics row s).2 := rfl

/-- If the approval step returned a positive count, the conversion count it
was fed was positive. -/
theorem apprOf_pos_conv (row : Row) (s : RState) (h : 0 < ((apprOf row s).1).1) :
    0 < (convOf row s).1 := by
  by_contra hc
  have h0 : (convOf row s).1 = 0 := Nat.eq_zero_of_not_pos hc
  have : apprOf row s = ((0, 0), (revOf row s).2) := by
    unfold apprOf
    rw [h0]
    exact drawApproval_zero _ _
  rw [this] at h
  exact Nat.lt_irrefl 0 h

/-- The funnel bound `approved_conversion ≤ total_conversion` at the level of
the draws. -/
theorem apprOf_le_convOf (row : Row) (s : RState) :
    ((apprOf row s).1).1 ≤ (convOf row s).1 := by
  by_cases hc : (convOf row s).1 = 0
  · have : apprOf row s = ((0, 0), (revOf row s).2) := by
      unfold apprOf
      rw [hc]
      exact drawApproval_zero _ _
    rw [this, hc]
  · have hp : 0 < (convOf row s).1 := Nat.pos_of_ne_zero hc
    have := (drawApproval_spec (convOf row s).1 ((revOf row s).1).2 (revOf row s).2 hp).2
    exact Nat.le_of_lt this

/-- `revenue_total == 0 ⇔ total_conversion == 0` at the level of the draws. -/
theorem revOf_eq_zero_iff (row : Row) (s : RState) :
    ((revOf row s).1).1 = 0 ↔ (convOf row s).1 = 0 := by
  constructor
  · intro h
    by_contra hc
    have hp : 0 < (convOf row s).1 := Nat.pos_of_ne_zero hc
    have hd := drawRevenue_pos row (convOf row s).1 (convOf row s).2 hp
    have : ((revOf row s).1).1 = ((convOf row s).1 : ℚ) * ((revOf row s).1).2 := hd.2
    rw [this] at h
    have hpos : 0 < ((convOf row s).1 : ℚ) * ((revOf row s).1).2 := by
      have : (0 : ℚ) < ((convOf row s).1 : ℚ) := by exact_mod_cast hp
      exact mul_pos this hd.1
    exact absurd h (ne_of_gt hpos)
  · intro h
    have : revOf row s = ((0, 0), (convOf row s).2) := by
      unfold revOf
      rw [h]
      exact drawRevenue_zero _ _
    rw [this]

/-- `revenue_approved == 0 ⇔ approved_conversion == 0` at the level of the
draws. -/
theorem apprOf_rev_eq_zero_iff (row : Row) (s : RState) :
    ((apprOf row s).1).2 = 0 ↔ ((apprOf row s).1).1 = 0 := by
  have hrev : ((apprOf row s).1).2 =
      if 0 < ((apprOf row s).1).1
      then ((((apprOf row s).1).1 : ℕ) : ℚ) * ((revOf row s).1).2 else 0 := by
    unfold apprOf
    exact drawApproval_rev _ _ _
  constructor
  · intro h
    by_contra hc
    have hp : 0 < ((apprOf row s).1).1 := Nat.pos_of_ne_zero hc
    have hcp := apprOf_pos_conv row s hp
    have hd := drawRevenue_pos row (convOf row s).1 (convOf row s).2 hcp
    rw [hrev, if_pos hp] at h
    have hpos : 0 < ((((apprOf row s).1).1 : ℕ) : ℚ) * ((revOf row s).1).2 := by
      have : (0 : ℚ) < ((((apprOf row s).1).1 : ℕ) : ℚ) := by exact_mod_cast hp
      exact mul_pos this hd.1
    exact absurd h (ne_of_gt hpos)
  · intro h
    rw [hrev, h]
    simp

/-- A binomial draw whose first Bernoulli trial succeeds is positive. -/
theorem randomBinomial_pos (n : ℕ) (p : ℚ) (s : RState) (hn : 0 < n)
    (h : (randomUnit s).1 < p) : 0 < (randomBinomial n p s).1 := by
  cases n with
  | zero => exact absurd hn (Nat.lt_irrefl 0)
  | succ m =>
    show 0 < (if (randomUnit s).1 < p then 1 else 0) +
      (randomBinomial m p (randomUnit s).2).1
    rw [if_pos h]
    omega

/-- `revenue_total == 0 ⇔ total_conversion == 0` at the level of the fixed
record. -/
theorem fixRow_rev_total_iff (row : Row) (s : RState) :
    ((fixRow row s).1).revenue_total = 0 ↔ ((fixRow row s).1).total_conversion = 0 := by
  by_cases h : row.clicks = 0
  · rw [fixRow_rev_total, fixRow_total, crm_zero row s h]
    simp
  · rw [fixRow_rev_total, fixRow_total, crm_rev_total row s h, crm_conv row s h]
    exact revOf_eq_zero_iff row s

/-- `revenue_approved == 0 ⇔ approved_conversion == 0` at the level of the
fixed record. -/
theorem fixRow_rev_approved_iff (row : Row) (s : RState) :
    ((fixRow row s).1).revenue_approved = 0 ↔
      ((fixRow row s).1).approved_conversion = 0 := by
  by_cases h : row.clicks = 0
  · rw [fixRow_rev_approved, fixRow_approved, crm_zero row s h]
    simp
  · rw [fixRow_rev_approved, fixRow_approved, crm_rev_approved row s h,
      crm_approved row s h]
    exact apprOf_rev_eq_zero_iff row s

/-- A record with zero synthesized conversions carries a zero recomputed
ROAS. -/
theorem fixRow_roas_total_zero (row : Row) (s : RState)
    (h : ((fixRow row s).1).total_conversion = 0) :
    ((fixRow row s).1).roas_total = 0 := by
  have hr : ((fixRow row s).1).revenue_total = 0 := (fixRow_rev_total_iff row s).mpr h
  rw [fixRow_rev_total] at hr
  rw [fixRow_roas_total, hr]
  simp

/-- No fixed record tests positive for the reporter's high-ROAS-zero-conversion
predicate. -/
theorem not_high_roas (row : Row) (s : RState) :
    (decide (5 < ((fixRow row s).1).roas_total) &&
      decide (((fixRow row s).1).total_conversion = 0)) = false := by
  by_cases h : ((fixRow row s).1).total_conversion = 0
  · have hz := fixRow_roas_total_zero row s h
    have hlt : ¬ (5 : ℚ) < ((fixRow row s).1).roas_total := by
      rw [hz]
      norm_num
    simp [hlt]
  · simp [h]

/-- Over the end-to-end scenario row, the realistic CVR is at least
`0.042336` whenever the variance multiplier is at least `0.9`. -/
theorem rowC8_cvr_lb (v : ℚ) (hv : (0.9 : ℚ) ≤ v) :
    (0.042336 : ℚ) ≤ realistic_cvr_of rowC8 v := by
  have hconst : age_cvr rowC8.age * gender_adj rowC8.gender *
      quality_adj_of (ctr_of rowC8.clicks rowC8.impressions) = 0.04704 := by
    norm_num +decide [age_cvr, gender_adj, quality_adj_of, ctr_of, rowC8]
  show (0.042336 : ℚ) ≤ max 0.005 (min (max_cvr_of rowC8.clicks)
    (age_cvr rowC8.age * gender_adj rowC8.gender *
      quality_adj_of (ctr_of rowC8.clicks rowC8.impressions) * v))
  rw [hconst]
  have hmax : max_cvr_of rowC8.clicks = 0.06 := by
    norm_num [max_cvr_of, rowC8]
  rw [hmax]
  refine le_trans (le_min ?_ ?_) (le_max_right _ _)
  · norm_num
  · nlinarith

/-- The variance draw of the end-to-end scenario row lands in `[0.9, 1.1]`. -/
theorem rowC8_var_mem (s : RState) :
    (0.9 : ℚ) ≤ (varOf rowC8 s).1 ∧ (varOf rowC8 s).1 ≤ 1.1 := by
  have hvar : varOf rowC8 s = randomUniform 0.9 1.1 s := by
    show drawVariance rowC8.clicks s = _
    unfold drawVariance
    norm_num [rowC8]
  rw [hvar]
  exact randomUniform_mem 0.9 1.1 s (by norm_num)

/-- The end-to-end scenario row always has expected conversions above the
small-expectation threshold. -/
theorem rowC8_not_small (s : RState) :
    ¬ cvrOf rowC8 s * (rowC8.clicks : ℚ) < 0.15 := by
  have hlb : (0.042336 : ℚ) ≤ cvrOf rowC8 s :=
    rowC8_cvr_lb (varOf rowC8 s).1 (rowC8_var_mem s).1
  have h20 : ((rowC8.clicks : ℕ) : ℚ) = 20 := by norm_num [rowC8]
  rw [h20]
  exact not_lt.mpr (by nlinarith)

/-- The end-to-end scenario row's conversions come from the Binomial branch. -/
theorem rowC8_binomial (s : RState) :
    convOf rowC8 s = randomBinomial rowC8.clicks (cvrOf rowC8 s) (varOf rowC8 s).2 := by
  unfold convOf drawConversions
  rw [if_neg (rowC8_not_small s)]

/-! ### The claims -/

/-- C1: for every input record list and every random-stream state, no record
produced by the synthesis pipeline has `roas_total > 5` with
`total_conversion == 0`: the reporter's high-ROAS-zero-conversion count over
the full output set is exactly 0. -/
theorem C1_no_high_roas_zero_conversion (rows : List Row) (s : RState) :
    high_roas_zero_conv (fix_data_comprehensive rows s) = 0 := by
  induction rows generalizing s with
  | nil => rfl
  | cons r rs ih =>
    show ((fixRow r s).1 :: fix_data_comprehensive rs (fixRow r s).2).countP
      (fun o => decide (5 < o.roas_total) && decide (o.total_conversion = 0)) = 0
    rw [List.countP_cons]
    simp only [not_high_roas r s]
    rw [if_neg Bool.false_ne_true, Nat.add_zero]
    exact ih (fixRow r s).2

/-- C2: every record produced by the synthesis pipeline satisfies the funnel
invariant `0 ≤ approved_conversion ≤ total_conversion ≤ clicks`. -/
theorem C2_funnel_invariant (row : Row) (s : RState) :
    ((fixRow row s).1).approved_conversion ≤ ((fixRow row s).1).total_conversion ∧
    ((fixRow row s).1).total_conversion ≤ row.clicks := by
  by_cases h : row.clicks = 0
  · rw [fixRow_approved, fixRow_total, crm_zero row s h]
    exact ⟨Nat.le_refl 0, Nat.zero_le _⟩
  · rw [fixRow_approved, fixRow_total, crm_approved row s h, crm_conv row s h]
    refine ⟨apprOf_le_convOf row s, ?_⟩
    unfold convOf
    exact drawConversions_le _ _ _ (Nat.one_le_iff_ne_zero.mpr h)

/-- C3: for every record produced by the synthesis pipeline,
`revenue_total == 0` iff `total_conversion == 0`, and `revenue_approved == 0`
iff `approved_conversion == 0`. -/
theorem C3_revenue_conversion_consistency (row : Row) (s : RState) :
    (((fixRow row s).1).revenue_total = 0 ↔ ((fixRow row s).1).total_conversion = 0) ∧
    (((fixRow row s).1).revenue_approved = 0 ↔
      ((fixRow row s).1).approved_conversion = 0) :=
  ⟨fixRow_rev_total_iff row s, fixRow_rev_approved_iff row s⟩

/-- C4: an input record with `clicks == 0` gets all conversion, revenue and
ratio fields synthesized as zero, whatever its other fields, and the
pseudo-random stream state is returned unchanged. -/
theorem C4_zero_clicks_all_zero (row : Row) (s : RState) (h : row.clicks = 0) :
    (fixRow row s).1 = ⟨0, 0, 0, 0, 0, 0, 0, 0, 0, 0⟩ ∧ (fixRow row s).2 = s := by
  refine ⟨?_, ?_⟩ <;> simp [fixRow, crm_zero row s h]

theorem C4_zero_clicks_all_zero_witness :
    (fixRow ⟨"30-34", "M", 500, 0, 25⟩ ⟨fun _ => 0, 0⟩).1 =
      ⟨0, 0, 0, 0, 0, 0, 0, 0, 0, 0⟩ ∧
    (fixRow ⟨"30-34", "M", 500, 0, 25⟩ ⟨fun _ => 0, 0⟩).2 = ⟨fun _ => 0, 0⟩ :=
  C4_zero_clicks_all_zero ⟨"30-34", "M", 500, 0, 25⟩ ⟨fun _ => 0, 0⟩ rfl

/-- C5: every record produced by the pipeline has its derived ratios
recomputed with zero-guarded divisions and 0 as the sentinel:
`cpa_total = spent / total_conversion` when `total_conversion > 0` else 0,
`cpa_approved` symmetrically, `roas_total = revenue_total / spent` when
`spent > 0` else 0, `roas_approved` symmetrically. -/
theorem C5_ratio_recomputation (row : Row) (s : RState) :
    (((fixRow row s).1).cpa_total =
      if 0 < ((fixRow row s).1).total_conversion
      then row.spent / (((fixRow row s).1).total_conversion : ℚ) else 0) ∧
    (((fixRow row s).1).cpa_approved =
      if 0 < ((fixRow row s).1).approved_conversion
      then row.spent / (((fixRow row s).1).approved_conversion : ℚ) else 0) ∧
    (((fixRow row s).1).roas_total =
      if 0 < row.spent then ((fixRow row s).1).revenue_total / row.spent else 0) ∧
    (((fixRow row s).1).roas_approved =
      if 0 < row.spent then ((fixRow row s).1).revenue_approved / row.spent else 0) :=
  ⟨rfl, rfl, rfl, rfl⟩

/-- C6: for every record with `1 ≤ clicks ≤ 3` and every value of the drawn
variance multiplier, the synthesized realistic CVR lies in `[0.005, 0.12]`,
the ceiling being the ≤3-click tier's `max_cvr = 0.12`. -/
theorem C6_small_sample_cvr_clamp (row : Row) (v : ℚ) (h1 : 1 ≤ row.clicks)
    (h2 : row.clicks ≤ 3) :
    (0.005 : ℚ) ≤ realistic_cvr_of row v ∧ realistic_cvr_of row v ≤ 0.12 ∧
    max_cvr_of row.clicks = 0.12 := by
  have hm : max_cvr_of row.clicks = 0.12 := by
    unfold max_cvr_of
    rw [if_pos h2]
  refine ⟨realistic_cvr_lb row v, ?_, hm⟩
  have hub := realistic_cvr_ub row v
  rw [hm] at hub
  exact hub

theorem C6_small_sample_cvr_clamp_witness :
    1 ≤ (⟨"18-24", "F", 10, 1, 3⟩ : Row).clicks ∧
    (⟨"18-24", "F", 10, 1, 3⟩ : Row).clicks ≤ 3 ∧
    ((0.005 : ℚ) ≤ realistic_cvr_of ⟨"18-24", "F", 10, 1, 3⟩ 7 ∧
     realistic_cvr_of ⟨"18-24", "F", 10, 1, 3⟩ 7 ≤ 0.12 ∧
     max_cvr_of (⟨"18-24", "F", 10, 1, 3⟩ : Row).clicks = 0.12) :=
  ⟨by decide, by decide,
    C6_small_sample_cvr_clamp ⟨"18-24", "F", 10, 1, 3⟩ 7 (by decide) (by decide)⟩

/-- C7: for every record with `clicks > 0` and every variance value, if
`realistic_cvr × clicks < 0.15` the conversion count is a single Bernoulli
trial (hence 0 or 1) whose success probability `realistic_cvr × clicks` is a
valid probability; otherwise the count is drawn from
`Binomial(n = clicks, p = realistic_cvr)`. -/
theorem C7_conversion_draw_branches (row : Row) (v : ℚ) (s : RState)
    (h : 0 < row.clicks) :
    (realistic_cvr_of row v * (row.clicks : ℚ) < 0.15 →
      (drawConversions (realistic_cvr_of row v) row.clicks s).1 ≤ 1 ∧
      0 ≤ realistic_cvr_of row v * (row.clicks : ℚ) ∧
      realistic_cvr_of row v * (row.clicks : ℚ) ≤ 1) ∧
    (¬ realistic_cvr_of row v * (row.clicks : ℚ) < 0.15 →
      drawConversions (realistic_cvr_of row v) row.clicks s =
        randomBinomial row.clicks (realistic_cvr_of row v) s) := by
  constructor
  · intro hlt
    refine ⟨?_, ?_, ?_⟩
    · unfold drawConversions
      rw [if_pos hlt]
      show (if (randomUnit s).1 < realistic_cvr_of row v * (row.clicks : ℚ)
        then 1 else 0) ≤ 1
      split <;> omega
    · exact mul_nonneg (le_trans (by norm_num) (realistic_cvr_lb row v))
        (Nat.cast_nonneg _)
    · linarith
  · intro hge
    unfold drawConversions
    rw [if_neg hge]

theorem C7_conversion_draw_branches_witness :
    0 < (⟨"18-24", "M", 100000, 1, 5⟩ : Row).clicks ∧
    (drawConversions (realistic_cvr_of ⟨"18-24", "M", 100000, 1, 5⟩ 1)
      (⟨"18-24", "M", 100000, 1, 5⟩ : Row).clicks ⟨fun _ => 0, 0⟩).1 ≤ 1 := by
  have happ := C7_conversion_draw_branches ⟨"18-24", "M", 100000, 1, 5⟩ 1
    ⟨fun _ => 0, 0⟩ (by decide)
  have hsmall : realistic_cvr_of ⟨"18-24", "M", 100000, 1, 5⟩ 1 *
      (((⟨"18-24", "M", 100000, 1, 5⟩ : Row).clicks : ℕ) : ℚ) < 0.15 := by
    norm_num +decide [realistic_cvr_of, age_cvr, gender_adj, quality_adj_of,
      ctr_of, max_cvr_of]
  exact ⟨by decide, (happ.1 hsmall).1⟩

/-- C8: for the spec's end-to-end scenario row
`{age: "35-39", gender: "F", Impressions: 1000, Clicks: 20, Spent: 60}` and
every stream state, the selected product tier is standard-or-premium, the
conversion count comes from the Binomial branch (never the Bernoulli branch),
and whenever the drawn `total_conversion > 0` the output satisfies
`cpa_total == Spent / total_conversion` exactly. -/
theorem C8_end_to_end_scenario (s : RState) :
    (get_product_tier rowC8.spent rowC8.clicks = Tier.standard ∨
     get_product_tier rowC8.spent rowC8.clicks = Tier.premium) ∧
    ¬ cvrOf rowC8 s * (rowC8.clicks : ℚ) < 0.15 ∧
    convOf rowC8 s = randomBinomial rowC8.clicks (cvrOf rowC8 s) (varOf rowC8 s).2 ∧
    (0 < ((fixRow rowC8 s).1).total_conversion →
      ((fixRow rowC8 s).1).cpa_total =
        rowC8.spent / (((fixRow rowC8 s).1).total_conversion : ℚ)) := by
  refine ⟨Or.inr (by decide), rowC8_not_small s, rowC8_binomial s, ?_⟩
  intro h
  rw [fixRow_cpa_total, fixRow_total]
  rw [fixRow_total] at h
  rw [if_pos h]

theorem C8_end_to_end_scenario_witness :
    (get_product_tier rowC8.spent rowC8.clicks = Tier.standard ∨
     get_product_tier rowC8.spent rowC8.clicks = Tier.premium) ∧
    ((fixRow rowC8 ⟨fun _ => 0, 0⟩).1).cpa_total =
      rowC8.spent / (((fixRow rowC8 ⟨fun _ => 0, 0⟩).1).total_conversion : ℚ) := by
  have hpos : 0 < ((fixRow rowC8 ⟨fun _ => 0, 0⟩).1).total_conversion := by
    rw [fixRow_total, crm_conv rowC8 ⟨fun _ => 0, 0⟩ (by decide),
      rowC8_binomial ⟨fun _ => 0, 0⟩]
    apply randomBinomial_pos
    · decide
    · have hu : (randomUnit (varOf rowC8 (⟨fun _ => 0, 0⟩ : RState)).2).1 = 0 := by
        have hst : (varOf rowC8 (⟨fun _ => 0, 0⟩ : RState)).2 = ⟨fun _ => 0, 1⟩ := rfl
        rw [hst]
        show unitClamp ((fun _ => (0 : ℚ)) 1) = 0
        norm_num [unitClamp]
      rw [hu]
      have hlb := rowC8_cvr_lb (varOf rowC8 (⟨fun _ => 0, 0⟩ : RState)).1
        (rowC8_var_mem ⟨fun _ => 0, 0⟩).1
      show (0 : ℚ) < cvrOf rowC8 ⟨fun _ => 0, 0⟩
      exact lt_of_lt_of_le (by norm_num) hlb
  have h := C8_end_to_end_scenario ⟨fun _ => 0, 0⟩
  exact ⟨h.1, h.2.2.2 hpos⟩

/-- C9: determinism — for a fixed stream state (seed) and the same record list
in the same order, two runs of the pipeline produce identical output; and the
run threads the single stream state sequentially from each record to the
next. -/
theorem C9_determinism (s1 s2 : RState) (rows1 rows2 : List Row) (r : Row)
    (rs : List Row) (h1 : s1 = s2) (h2 : rows1 = rows2) :
    fix_data_comprehensive rows1 s1 = fix_data_comprehensive rows2 s2 ∧
    fix_data_comprehensive (r :: rs) s1 =
      (fixRow r s1).1 :: fix_data_comprehensive rs ((fixRow r s1).2) := by
  subst h1
  subst h2
  exact ⟨rfl, rfl⟩

theorem C9_determinism_witness :
    fix_data_comprehensive [⟨"30-34", "M", 100, 7, 20⟩] ⟨fun _ => 0, 0⟩ =
      fix_data_comprehensive [⟨"30-34", "M", 100, 7, 20⟩] ⟨fun _ => 0, 0⟩ ∧
    fix_data_comprehensive [⟨"30-34", "M", 100, 7, 20⟩] ⟨fun _ => 0, 0⟩ =
      (fixRow ⟨"30-34", "M", 100, 7, 20⟩ ⟨fun _ => 0, 0⟩).1 ::
        fix_data_comprehensive [] ((fixRow ⟨"30-34", "M", 100, 7, 20⟩ ⟨fun _ => 0, 0⟩).2) :=
  C9_determinism ⟨fun _ => 0, 0⟩ ⟨fun _ => 0, 0⟩ [⟨"30-34", "M", 100, 7, 20⟩]
    [⟨"30-34", "M", 100, 7, 20⟩] ⟨"30-34", "M", 100, 7, 20⟩ [] rfl rfl

/-- C10: implicit consequence of the truncating approval step — a record whose
synthesized `total_conversion` is exactly 1 always gets
`approved_conversion == 0` (an approval rate in `[0.70, 0.88]` times 1
truncates to 0), hence `revenue_approved == 0` while `revenue_total > 0`;
and `approved_conversion ≤ ⌊0.88 × total_conversion⌋`. -/
theorem C10_single_conversion_never_approved (row : Row) (s : RState)
    (h : ((fixRow row s).1).total_conversion = 1) :
    ((((fixRow row s).1).approved_conversion : ℕ) : ℤ) ≤
      ⌊(0.88 : ℚ) * ((((fixRow row s).1).total_conversion : ℕ) : ℚ)⌋ ∧
    ((fixRow row s).1).approved_conversion = 0 ∧
    ((fixRow row s).1).revenue_approved = 0 ∧
    0 < ((fixRow row s).1).revenue_total := by
  have hcl : row.clicks ≠ 0 := by
    intro hc
    rw [fixRow_total, crm_zero row s hc] at h
    simp at h
  have hconv : (convOf row s).1 = 1 := by
    rw [fixRow_total, crm_conv row s hcl] at h
    exact h
  have happr : ((apprOf row s).1).1 = 0 := by
    show ((drawApproval (convOf row s).1 ((revOf row s).1).2 (revOf row s).2).1).1 = 0
    rw [hconv]
    exact drawApproval_one _ _
  have happrev : ((apprOf row s).1).2 = 0 := (apprOf_rev_eq_zero_iff row s).mpr happr
  have hrevpos : 0 < ((revOf row s).1).1 := by
    have hd := drawRevenue_pos row (convOf row s).1 (convOf row s).2
      (by rw [hconv]; exact Nat.one_pos)
    have hd1 : 0 < ((revOf row s).1).2 := hd.1
    have heq : ((revOf row s).1).1 = ((convOf row s).1 : ℚ) * ((revOf row s).1).2 := hd.2
    rw [heq, hconv]
    push_cast
    linarith [hd1]
  refine ⟨?_, ?_, ?_, ?_⟩
  · rw [fixRow_approved, crm_approved row s hcl, happr, h]
    have h0 : (0 : ℚ) ≤ (0.88 : ℚ) * (((1 : ℕ) : ℕ) : ℚ) := by
      push_cast
      norm_num
    simpa using Int.floor_nonneg.mpr h0
  · rw [fixRow_approved, crm_approved row s hcl]
    exact happr
  · rw [fixRow_rev_approved, crm_rev_approved row s hcl]
    exact happrev
  · rw [fixRow_rev_total, crm_rev_total row s hcl]
    exact hrevpos

theorem C10_single_conversion_never_approved_witness :
    ((fixRow ⟨"18-24", "M", 100, 1, 5⟩ ⟨fun _ => 0, 0⟩).1).approved_conversion = 0 ∧
    0 < ((fixRow ⟨"18-24", "M", 100, 1, 5⟩ ⟨fun _ => 0, 0⟩).1).revenue_total := by
  have h1 : ((fixRow ⟨"18-24", "M", 100, 1, 5⟩ ⟨fun _ => 0, 0⟩).1).total_conversion = 1 := by
    norm_num [fixRow, calculate_realistic_metrics, drawVariance, randomUniform,
      randomUnit, unitClamp, realistic_cvr_of, age_cvr, gender_adj, ctr_of,
      quality_adj_of, max_cvr_of, drawConversions, drawRevenue, drawApproval,
      get_product_tier, revenue_tiers, age_revenue_mult, intTrunc, randomBinomial]
  have h := C10_single_conversion_never_approved ⟨"18-24", "M", 100, 1, 5⟩
    ⟨fun _ => 0, 0⟩ h1
  exact ⟨h.2.1, h.2.2.2⟩

end PaidMedia
